import Mathlib

/-!
Verification of `lib/open_library_api.py`: a small client for the Open
Library search API.  The module defines a class `Search` with three
methods; the claims concern `get_user_search_results` (lines 35-45) and
the module-level CLI script (lines 54-57).

The embedding models:
* Python `str.replace(" ", "+")` on the query term (a single-character
  pattern, hence a per-character substitution);
* the f-string building the request URL;
* parsed JSON values (`JValue`) with Python's subscript semantics
  (`KeyError` / `IndexError` / `TypeError` surfaced through `Except`);
* the HTTP layer as an oracle `String → HttpResponse` mapping the
  requested URL to a response (status code plus the result of `.json()`);
* observable side effects (outbound GET requests, writes to stdout) as an
  explicit `Effect` trace.
-/

/-- Python exceptions that the subscript/parse operations of this script
can raise; the script catches none of them. -/
inductive PyErr where
  | keyError (k : String)
  | indexError
  | typeError
  | jsonError
deriving DecidableEq

/-- A parsed JSON value, as produced by `response.json()`.  Numbers are
modelled as integers (the script never reads a numeric field). -/
inductive JValue where
  | jnull
  | jbool (b : Bool)
  | jnum (n : Int)
  | jstr (s : String)
  | jarr (xs : List JValue)
  | jobj (kvs : List (String × JValue))

mutual

/-- Python `repr(v)`, as `str` uses it for the elements of lists and
dicts (escape sequences inside nested strings are not reproduced).  The
script only ever interpolates `title` and `author_name[0]`, which are
plain strings on every path the claims exercise. -/
def pyRepr : JValue → String
  | .jnull => "None"
  | .jbool b => if b then "True" else "False"
  | .jnum n => toString n
  | .jstr s => "\x27" ++ s ++ "\x27"
  | .jarr xs => "[" ++ pyReprArr xs ++ "]"
  | .jobj kvs => "\x7b" ++ pyReprObj kvs ++ "\x7d"

/-- Comma-separated `repr`s of the elements of a list. -/
def pyReprArr : List JValue → String
  | [] => ""
  | [v] => pyRepr v
  | v :: w :: vs => pyRepr v ++ ", " ++ pyReprArr (w :: vs)

/-- Comma-separated `'key': repr(value)` entries of a dict. -/
def pyReprObj : List (String × JValue) → String
  | [] => ""
  | [(k, v)] => "\x27" ++ k ++ "\x27: " ++ pyRepr v
  | (k, v) :: kv :: kvs =>
      "\x27" ++ k ++ "\x27: " ++ pyRepr v ++ ", " ++ pyReprObj (kv :: kvs)

end

/-- Python `str(v)`, as applied by f-string interpolation: the string
itself for a string, `True`/`False`/`None` for the other atoms, and the
`repr`-style rendering for containers. -/
def pyStr : JValue → String
  | .jnull => "None"
  | .jbool b => if b then "True" else "False"
  | .jnum n => toString n
  | .jstr s => s
  | .jarr xs => "[" ++ pyReprArr xs ++ "]"
  | .jobj kvs => "\x7b" ++ pyReprObj kvs ++ "\x7d"

/-- Python `v[k]` for a string key `k`: a `dict` lookup raising
`KeyError` when the key is absent; any other value raises `TypeError`
(lists and strings only accept integer indices). -/
def jGetKey (v : JValue) (k : String) : Except PyErr JValue :=
  match v with
  | .jobj kvs =>
      match kvs.lookup k with
      | some x => .ok x
      | none => .error (.keyError k)
  | _ => .error .typeError

/-- Python `v[i]` for a non-negative integer index `i`: list indexing
raising `IndexError` out of range; string indexing yields a one-character
string; a `dict` raises `KeyError` (the integer is not a key); other
values raise `TypeError`. -/
def jGetIdx (v : JValue) (i : Nat) : Except PyErr JValue :=
  match v with
  | .jarr xs =>
      match xs.get? i with
      | some x => .ok x
      | none => .error .indexError
  | .jstr s =>
      match s.data.get? i with
      | some c => .ok (.jstr (String.singleton c))
      | none => .error .indexError
  | .jobj _ => .error (.keyError (toString i))
  | _ => .error .typeError

/-- The value returned by `requests.get(URL)`: its HTTP status code and
the outcome of `.json()` (either the parsed body or a decode error).
`requests` never raises on a non-2xx status unless asked to. -/
structure HttpResponse where
  status : Nat
  json : Except PyErr JValue

/-- An observable side effect of the script: an outbound HTTP GET, or a
write to standard output. -/
inductive Effect where
  | httpGet (url : String)
  | stdoutWrite (s : String)
deriving DecidableEq

/-- The class `Search` (line 5).  Its body declares no attributes and no
`__init__`, so an instance carries no state. -/
structure Search where

/-- Line 36, `search_term.replace(" ", "+")`: Python's `str.replace`
with the single-character pattern `" "` substitutes `'+'` for each
space, character by character. -/
def pyReplaceSpacePlus : List Char → List Char
  | [] => []
  | c :: cs => (if c = ' ' then '+' else c) :: pyReplaceSpacePlus cs

/-- The formatted query term `search_term_formatted` of line 36. -/
def searchTermFormatted (searchTerm : String) : String :=
  ⟨pyReplaceSpacePlus searchTerm.data⟩

/-- The URL built by lines 36-41: the f-string
`https://openlibrary.org/search.json?title=...&fields=...&limit=...`
with `fields_formatted = ",".join(["title", "author_name"])` and
`limit = 1`. -/
def buildURL (searchTerm : String) : String :=
  let fieldsFormatted := String.intercalate "," ["title", "author_name"]
  let limit : Nat := 1
  "https://openlibrary.org/search.json?title=" ++ searchTermFormatted searchTerm
    ++ "&fields=" ++ fieldsFormatted ++ "&limit=" ++ toString limit

/-- The method `get_user_search_results` (lines 35-45), instrumented with
its effect trace.  The method builds the URL, performs one
`requests.get(URL).json()`, and formats
`f"Title: (docs[0].title)\nAuthor: (docs[0].author_name[0])"`, indexing
`response['docs'][0]` once for the title and once more for the author,
in the f-string's left-to-right order.  It contains no `print`. -/
def Search.get_user_search_results (self : Search) (searchTerm : String)
    (http : String → HttpResponse) : List Effect × Except PyErr String :=
  let URL := buildURL searchTerm
  let result : Except PyErr String := do
    let response ← (http URL).json
    let docsA ← jGetKey response "docs"
    let docA ← jGetIdx docsA 0
    let title ← jGetKey docA "title"
    let docsB ← jGetKey response "docs"
    let docB ← jGetIdx docsB 0
    let authors ← jGetKey docB "author_name"
    let author ← jGetIdx authors 0
    .ok ("Title: " ++ pyStr title ++ "\nAuthor: " ++ pyStr author)
  ([Effect.httpGet URL], result)

/-- The module-level CLI script (lines 54-57) as its effect trace:
`input("Enter a book title: ")` writes the prompt to stdout and reads
one line; an uncaught exception from `get_user_search_results` kills the
process before anything else is written; otherwise
`print("Search Result:\n")` and `print(result)` each append a newline to
their argument. -/
def cliRun (stdinLine : String) (http : String → HttpResponse) : List Effect :=
  let call := Search.get_user_search_results ⟨⟩ stdinLine http
  match call.2 with
  | .error _ => Effect.stdoutWrite "Enter a book title: " :: call.1
  | .ok r =>
      Effect.stdoutWrite "Enter a book title: " :: call.1
        ++ [Effect.stdoutWrite ("Search Result:\n" ++ "\n"),
            Effect.stdoutWrite (r ++ "\n")]

/-- Everything a trace writes to standard output, in order. -/
def stdoutOf (trace : List Effect) : String :=
  trace.foldl
    (fun acc e =>
      match e with
      | .stdoutWrite s => acc ++ s
      | _ => acc) ""

/-- The bytes the CLI script writes to stdout for one stdin line. -/
def cliStdout (stdinLine : String) (http : String → HttpResponse) : String :=
  stdoutOf (cliRun stdinLine http)

/-- The mocked document `(title: The Hobbit, author_name: [J.R.R. Tolkien])`
used by the spec's example. -/
def hobbitDoc : JValue :=
  .jobj [("title", .jstr "The Hobbit"),
         ("author_name", .jarr [.jstr "J.R.R. Tolkien"])]

/-- The mocked response body `(docs: [hobbitDoc])`. -/
def hobbitResp : JValue := .jobj [("docs", .jarr [hobbitDoc])]

/-- An HTTP oracle answering every URL with status 200 and the mocked
Hobbit body. -/
def okHttpHobbit : String → HttpResponse := fun _ => ⟨200, .ok hobbitResp⟩

/-! ## General helper lemmas -/

/-- Binding a successful `Except` computation runs the continuation. -/
theorem except_ok_bind {ε α β : Type} (a : α) (f : α → Except ε β) :
    ((Except.ok a : Except ε α) >>= f) = f a := rfl

/-- Binding a failed `Except` computation propagates the error, as an
uncaught Python exception does. -/
theorem except_error_bind {ε α β : Type} (e : ε) (f : α → Except ε β) :
    ((Except.error e : Except ε α) >>= f) = Except.error e := rfl

/-! ## Claims -/

/-- C1: the query-term transformation of line 36 replaces every space
with `'+'` and maps every other character, URL-reserved ones included,
to itself; in particular `"the hobbit"` becomes `"the+hobbit"`. -/
theorem c1_query_term_replaces_only_spaces :
    (∀ t : String,
        (searchTermFormatted t).data
          = t.data.map (fun c => if c = ' ' then '+' else c))
    ∧ searchTermFormatted "the hobbit" = "the+hobbit" := by
  refine ⟨fun t => ?_, by decide⟩
  show pyReplaceSpacePlus t.data = _
  induction t.data with
  | nil => rfl
  | cons c cs ih => simp [pyReplaceSpacePlus, ih]

/-- C2: for every search term the constructed URL is exactly the fixed
endpoint followed by `title=<transformed term>`, the literal
`fields=title,author_name` and the literal `limit=1`, in that order. -/
theorem c2_url_exact_shape (t : String) :
    buildURL t
      = "https://openlibrary.org/search.json?title=" ++ searchTermFormatted t
          ++ "&fields=title,author_name&limit=1" := by
  have hF : String.intercalate "," ["title", "author_name"] = "title,author_name" := by
    decide
  simp only [buildURL, hF, String.append_assoc]
  congr 1

/-- C3: whenever the parsed body has a non-empty `docs` sequence whose
first document carries a string `title` and a non-empty `author_name`
sequence headed by a string, the method returns exactly
`"Title: <title>\nAuthor: <author>"`. -/
theorem c3_formats_first_title_and_author (term : String) (resp doc : JValue)
    (ds rest : List JValue) (title author : String)
    (hdocs : jGetKey resp "docs" = .ok (.jarr (doc :: ds)))
    (htitle : jGetKey doc "title" = .ok (.jstr title))
    (hauth : jGetKey doc "author_name" = .ok (.jarr (.jstr author :: rest))) :
    (Search.get_user_search_results ⟨⟩ term (fun _ => ⟨200, .ok resp⟩)).2
      = .ok ("Title: " ++ title ++ "\nAuthor: " ++ author) := by
  simp [Search.get_user_search_results, except_ok_bind, except_error_bind,
    hdocs, htitle, hauth, jGetIdx, pyStr]

/-- C3 witness: the spec's mocked Hobbit response produces exactly
`"Title: The Hobbit\nAuthor: J.R.R. Tolkien"`. -/
theorem c3_witness :
    (Search.get_user_search_results ⟨⟩ "the hobbit" (fun _ => ⟨200, .ok hobbitResp⟩)).2
      = .ok "Title: The Hobbit\nAuthor: J.R.R. Tolkien" := by
  have h := c3_formats_first_title_and_author "the hobbit" hobbitResp hobbitDoc
    [] [] "The Hobbit" "J.R.R. Tolkien" rfl rfl rfl
  rw [h]
  rfl

/-- C4: an empty `docs` sequence makes the method fail with the
uncaught `IndexError` of `response['docs'][0]` instead of returning any
default or empty string. -/
theorem c4_empty_docs_raises_index_error (term : String) (resp : JValue)
    (hdocs : jGetKey resp "docs" = .ok (.jarr [])) :
    (Search.get_user_search_results ⟨⟩ term (fun _ => ⟨200, .ok resp⟩)).2
      = .error .indexError := by
  simp [Search.get_user_search_results, except_ok_bind, except_error_bind,
    hdocs, jGetIdx]

/-- C4 witness: the mocked body with `docs = []` yields `IndexError`. -/
theorem c4_witness :
    (Search.get_user_search_results ⟨⟩ "the hobbit"
        (fun _ => ⟨200, .ok (.jobj [("docs", .jarr [])])⟩)).2
      = .error .indexError :=
  c4_empty_docs_raises_index_error "the hobbit" (.jobj [("docs", .jarr [])]) rfl

/-- C5: a first document whose `author_name` is an empty sequence makes
the method fail with the uncaught `IndexError` of `author_name[0]`
instead of substituting a placeholder author. -/
theorem c5_empty_author_name_raises_index_error (term : String) (resp doc tval : JValue)
    (ds : List JValue)
    (hdocs : jGetKey resp "docs" = .ok (.jarr (doc :: ds)))
    (htitle : jGetKey doc "title" = .ok tval)
    (hauth : jGetKey doc "author_name" = .ok (.jarr [])) :
    (Search.get_user_search_results ⟨⟩ term (fun _ => ⟨200, .ok resp⟩)).2
      = .error .indexError := by
  simp [Search.get_user_search_results, except_ok_bind, except_error_bind,
    hdocs, htitle, hauth, jGetIdx]

/-- C5 witness: a Hobbit document with an empty `author_name` list
yields `IndexError`. -/
theorem c5_witness :
    (Search.get_user_search_results ⟨⟩ "the hobbit"
        (fun _ => ⟨200, .ok (.jobj [("docs",
          .jarr [.jobj [("title", .jstr "The Hobbit"), ("author_name", .jarr [])]])])⟩)).2
      = .error .indexError :=
  c5_empty_author_name_raises_index_error "the hobbit"
    (.jobj [("docs", .jarr [.jobj [("title", .jstr "The Hobbit"), ("author_name", .jarr [])]])])
    (.jobj [("title", .jstr "The Hobbit"), ("author_name", .jarr [])])
    (.jstr "The Hobbit") [] rfl rfl rfl

/-- C6: every invocation issues exactly one outbound GET, for the
constructed URL, and performs no other observable effect — in
particular no write to stdout. -/
theorem c6_exactly_one_get_no_other_effect (s : Search) (term : String)
    (http : String → HttpResponse) :
    (Search.get_user_search_results s term http).1 = [Effect.httpGet (buildURL term)] := rfl

/-- C7 counterexample: a response with the non-2xx status 404 whose
body is nevertheless well-formed produces a formatted result, not a
fatal error — the claim that every non-success status fails is false. -/
theorem c7_counterexample :
    ((404 < 200 ∨ 299 < 404) ∧
      (Search.get_user_search_results ⟨⟩ "the hobbit"
          (fun _ => ⟨404, .ok hobbitResp⟩)).2
        = .ok "Title: The Hobbit\nAuthor: J.R.R. Tolkien") :=
  ⟨by decide, rfl⟩

/-- C7 (amended): the method never inspects the HTTP status code — its
entire observable behaviour is identical for any two status assignments
over the same bodies, so a non-2xx response fails only through its
body. -/
theorem c7_status_code_never_inspected (s : Search) (term : String)
    (body : String → Except PyErr JValue) (st1 st2 : String → Nat) :
    Search.get_user_search_results s term (fun u => ⟨st1 u, body u⟩)
      = Search.get_user_search_results s term (fun u => ⟨st2 u, body u⟩) := rfl

/-- C8 counterexample: on the mocked Hobbit response the CLI's stdout
starts with the `input` prompt and carries the extra newlines that
`print` appends, so it is not the claimed two lines
`"Search Result:\n"` followed by the formatted string alone. -/
theorem c8_counterexample :
    cliStdout "the hobbit" okHttpHobbit
        = "Enter a book title: Search Result:\n\nTitle: The Hobbit\nAuthor: J.R.R. Tolkien\n"
      ∧ cliStdout "the hobbit" okHttpHobbit
        ≠ "Search Result:\n" ++ "Title: The Hobbit\nAuthor: J.R.R. Tolkien" :=
  ⟨rfl, by decide⟩

/-- C8 (amended): the CLI reads one line from stdin and, when the
search succeeds, writes to stdout the prompt `"Enter a book title: "`,
then the header `"Search Result:\n"` plus the newline `print` appends,
then the formatted result plus a final newline. -/
theorem c8_cli_output (line : String) (http : String → HttpResponse) (r : String)
    (h : (Search.get_user_search_results ⟨⟩ line http).2 = .ok r) :
    cliStdout line http
      = "Enter a book title: " ++ "Search Result:\n\n" ++ r ++ "\n" := by
  simp only [cliStdout, cliRun, h, stdoutOf, List.cons_append, List.nil_append,
    List.foldl_cons, List.foldl_nil]
  rw [String.empty_append, String.append_assoc]
  congr 1

/-- C8 witness: the amended output shape at the mocked Hobbit oracle. -/
theorem c8_witness :
    cliStdout "the hobbit" okHttpHobbit
      = "Enter a book title: " ++ "Search Result:\n\n"
          ++ "Title: The Hobbit\nAuthor: J.R.R. Tolkien" ++ "\n" :=
  c8_cli_output "the hobbit" okHttpHobbit "Title: The Hobbit\nAuthor: J.R.R. Tolkien" rfl

/-- C9: `Search` holds no mutable state — the class declares no
attributes, so the observable behaviour (request trace and result) of
`get_user_search_results` is the same for any two instances given the
same search term and the same HTTP responses, independent of prior
calls. -/
theorem c9_no_mutable_state (s1 s2 : Search) (term : String)
    (http : String → HttpResponse) :
    Search.get_user_search_results s1 term http
      = Search.get_user_search_results s2 term http := rfl

/-- C10: when the first document is a dict without a `"title"` key, the
method fails with the uncaught `KeyError` for `"title"` — even when a
non-empty `author_name` is present — because the f-string evaluates the
title lookup first. -/
theorem c10_missing_title_raises_key_error (term : String) (resp author : JValue)
    (kvs : List (String × JValue)) (ds : List JValue)
    (hdocs : jGetKey resp "docs" = .ok (.jarr (.jobj kvs :: ds)))
    (hnotitle : kvs.lookup "title" = none)
    (hauth : kvs.lookup "author_name" = some author) :
    (Search.get_user_search_results ⟨⟩ term (fun _ => ⟨200, .ok resp⟩)).2
      = .error (.keyError "title") := by
  have ht : jGetKey (JValue.jobj kvs) "title" = .error (.keyError "title") := by
    simp [jGetKey, hnotitle]
  simp [Search.get_user_search_results, except_ok_bind, except_error_bind,
    hdocs, jGetIdx, ht]

/-- C10 witness: a document carrying only `author_name` yields
`KeyError` for `"title"`. -/
theorem c10_witness :
    (Search.get_user_search_results ⟨⟩ "the hobbit"
        (fun _ => ⟨200, .ok (.jobj [("docs",
          .jarr [.jobj [("author_name", .jarr [.jstr "J.R.R. Tolkien"])]])])⟩)).2
      = .error (.keyError "title") :=
  c10_missing_title_raises_key_error "the hobbit"
    (.jobj [("docs", .jarr [.jobj [("author_name", .jarr [.jstr "J.R.R. Tolkien"])]])])
    (.jarr [.jstr "J.R.R. Tolkien"])
    [("author_name", .jarr [.jstr "J.R.R. Tolkien"])] [] rfl rfl rfl
